import Mathlib

/-!
Verification of the radif_service OTP authentication core.

The Go repository is shallowly embedded: each PostgreSQL table becomes a
list of rows, each repository method becomes a pure function on that list
(with explicit `now` for `NOW()` and explicit fresh ids for
`gen_random_uuid()`), a transaction becomes an `Except`-valued function
whose error result carries no new state (rollback), and possible storage
faults of individual statements are injected through explicit boolean
flags.  Machine time is modelled in whole seconds as `Nat`.
-/

deriving instance DecidableEq for Except

namespace Radif

/-- One row of the `otps` table (migration `002`, struct `otp` in
`internal/auth/repository.go`). -/
structure OTPRec where
  id : String
  phone : String
  code : String
  expiresAt : Nat
  usedAt : Option Nat
  createdAt : Nat
deriving Repr, DecidableEq

/-- The `otps` table, rows in insertion order. -/
abbrev OTPStore := List OTPRec

/-- The active-row predicate used by every SQL query on `otps`:
`used_at IS NULL AND expires_at > NOW()`. -/
def isActiveOTP (now : Nat) (o : OTPRec) : Bool :=
  o.usedAt.isNone && decide (now < o.expiresAt)

/-- The state change performed by the transaction body of
`Repository.UpsertOTP`: `UPDATE otps SET used_at = NOW() WHERE phone = $1
AND used_at IS NULL`, then `INSERT INTO otps (phone, code, expires_at)
VALUES ($1, $2, $3)`. -/
def upsertOTPApply (s : OTPStore) (phone code : String) (expiresAt now : Nat)
    (newId : String) : OTPStore :=
  (s.map fun o =>
    if o.phone == phone && o.usedAt.isNone then { o with usedAt := some now } else o)
    ++ [{ id := newId, phone := phone, code := code, expiresAt := expiresAt,
          usedAt := none, createdAt := now }]

/-- A storage fault surfaced by the database driver, tagged with the failing
operation (the Go code wraps the driver error with this text). -/
structure StorageErr where
  op : String
deriving Repr, DecidableEq

/-- Model of `Repository.UpsertOTP`.  The four flags model the driver failing at
`Begin`, the invalidating `UPDATE`, the `INSERT`, or `Commit`; any failure
rolls the transaction back, so an `Except.error` result leaves the caller
with the unchanged store. -/
def upsertOTP (fBegin fInv fIns fCommit : Bool) (s : OTPStore)
    (phone code : String) (expiresAt now : Nat) (newId : String) :
    Except StorageErr OTPStore :=
  if fBegin then .error ⟨"begin tx"⟩
  else if fInv then .error ⟨"invalidate old otps"⟩
  else if fIns then .error ⟨"insert otp"⟩
  else if fCommit then .error ⟨"commit"⟩
  else .ok (upsertOTPApply s phone code expiresAt now newId)

/-- Model of `ORDER BY created_at DESC LIMIT 1`: pick a row with the greatest
`created_at` from the filtered rows. -/
def latestBy (l : List OTPRec) : Option OTPRec :=
  l.foldl (fun acc o =>
    match acc with
    | none => some o
    | some b => if b.createdAt < o.createdAt then some o else some b) none

/-- Model of `Repository.GetActiveOTP`: the most recent unused, unexpired row for the
phone, `none` standing for `pgx.ErrNoRows`, i.e. `ErrOTPNotFound`. -/
def getActiveOTP (s : OTPStore) (phone : String) (now : Nat) : Option OTPRec :=
  latestBy (s.filter fun o => o.phone == phone && isActiveOTP now o)

/-- Model of `Repository.MarkOTPUsed`: `UPDATE otps SET used_at = NOW() WHERE id = $1`. -/
def markOTPUsed (s : OTPStore) (id : String) (now : Nat) : OTPStore :=
  s.map fun o => if o.id == id then { o with usedAt := some now } else o

/-- One row of the `users` table (struct `User` in the user package,
migration with the profile columns). -/
structure UserRec where
  id : String
  phone : String
  accountType : String
  username : Option String
  fullName : Option String
  bio : Option String
  businessPhone : Option String
  address : Option String
  avatarKey : Option String
  createdAt : Nat
  updatedAt : Nat
deriving Repr, DecidableEq

/-- The `users` table, rows in insertion order. -/
abbrev UserStore := List UserRec

/-- The user repository's error values: `ErrNotFound`, `ErrAlreadyExists`,
`ErrUsernameTaken`, or a wrapped driver fault. -/
inductive UserErr where
  | notFound
  | alreadyExists
  | usernameTaken
  | storage (op : String)
deriving Repr, DecidableEq

/-- Model of `user.Repository.GetByPhone`: `SELECT ... WHERE phone = $1`, with
`pgx.ErrNoRows` mapped to `ErrNotFound`. -/
def getByPhone (s : UserStore) (phone : String) : Except UserErr UserRec :=
  match s.find? (fun u => u.phone == phone) with
  | some u => .ok u
  | none => .error .notFound

/-- Model of `user.Repository.GetByID`. -/
def getByID (s : UserStore) (id : String) : Except UserErr UserRec :=
  match s.find? (fun u => u.id == id) with
  | some u => .ok u
  | none => .error .notFound

/-- Model of `user.Repository.Create`: `INSERT INTO users (phone, account_type)`;
the `UNIQUE` constraint on `phone` rejects a duplicate with the
duplicate-key signal (`isUniqueViolation`, mapped to `ErrAlreadyExists`). -/
def createUser (s : UserStore) (phone accountType : String) (now : Nat)
    (newId : String) : Except UserErr (UserRec × UserStore) :=
  if s.any (fun u => u.phone == phone) then .error .alreadyExists
  else
    let u : UserRec :=
      { id := newId, phone := phone, accountType := accountType,
        username := none, fullName := none, bio := none, businessPhone := none,
        address := none, avatarKey := none, createdAt := now, updatedAt := now }
    .ok (u, s ++ [u])

/-- Model of `auth.Repository.UserExists`: `SELECT EXISTS(SELECT 1 FROM users WHERE
phone = $1)`. -/
def userExists (s : UserStore) (phone : String) : Bool :=
  s.any fun u => u.phone == phone

/-- SQL `COALESCE(param, column)` applied to a nullable text parameter. -/
def coalesce (param current : Option String) : Option String :=
  match param with
  | some v => some v
  | none => current

/-- Model of `user.UpdateProfileParams`: nil pointers mean "leave unchanged". -/
structure UpdateProfileParams where
  username : Option String
  fullName : Option String
  bio : Option String
  businessPhone : Option String
  address : Option String
deriving Repr, DecidableEq

/-- The row produced by `UpdateProfile`'s `UPDATE ... SET col =
COALESCE($i, col)` statement; `updated_at` is refreshed by the
`users_set_updated_at` trigger. -/
def applyProfileUpdate (u : UserRec) (p : UpdateProfileParams) (now : Nat) : UserRec :=
  { u with
    username := coalesce p.username u.username
    fullName := coalesce p.fullName u.fullName
    bio := coalesce p.bio u.bio
    businessPhone := coalesce p.businessPhone u.businessPhone
    address := coalesce p.address u.address
    updatedAt := now }

/-- Model of `user.Repository.UpdateProfile`: no row for the id gives `ErrNotFound`;
a duplicate-key signal on the `username` unique index gives
`ErrUsernameTaken`; otherwise the row is updated in place. -/
def updateProfile (s : UserStore) (id : String) (p : UpdateProfileParams)
    (now : Nat) : Except UserErr (UserRec × UserStore) :=
  match s.find? (fun u => u.id == id) with
  | none => .error .notFound
  | some u =>
    if (applyProfileUpdate u p now).username.isSome
        && s.any (fun v =>
          v.id != id && v.username == (applyProfileUpdate u p now).username)
    then .error .usernameTaken
    else .ok (applyProfileUpdate u p now,
              s.map fun v => if v.id == id then applyProfileUpdate u p now else v)

/-- Model of `user.Repository.UpdateAvatarKey`. -/
def updateAvatarKey (s : UserStore) (id key : String) (now : Nat) :
    Except UserErr (UserRec × UserStore) :=
  match s.find? (fun u => u.id == id) with
  | none => .error .notFound
  | some u =>
    let u' := { u with avatarKey := some key, updatedAt := now }
    .ok (u', s.map fun v => if v.id == id then u' else v)

/-- The claim set produced by `Service.issueToken`; HS256 signing is an
external collaborator, so a bearer token is modelled by the claims it
certifies. -/
structure TokenClaims where
  sub : String
  phone : String
  accountType : String
  iat : Nat
  exp : Nat
deriving Repr, DecidableEq

/-- Thirty days, in seconds (`30 * 24 * time.Hour`). -/
def tokenTTL : Nat := 30 * 24 * 60 * 60

/-- Model of `Service.issueToken`. -/
def issueToken (userID phone accountType : String) (now : Nat) : TokenClaims :=
  { sub := userID, phone := phone, accountType := accountType,
    iat := now, exp := now + tokenTTL }

/-- The errors `Service.VerifyOTP` returns to the handler: the sentinel
`ErrInvalidOTP`, or an `fmt.Errorf`-wrapped fault from a later step (which
the handler maps to a generic 500). -/
inductive AuthErr where
  | invalidOTP
  | storageFault (op : String)
deriving Repr, DecidableEq

/-- Model of `auth.VerifyResult`; the Go `Token string` zero value `""` is the
`none` case. -/
structure VerifyResult where
  isNewUser : Bool
  token : Option TokenClaims
  userID : String
deriving Repr, DecidableEq

/-- Which of `VerifyOTP`'s four store calls suffers a driver fault. -/
structure VerifyFaults where
  getActive : Bool
  markUsed : Bool
  userExists : Bool
  getByPhone : Bool
deriving Repr, DecidableEq

/-- The fault-free run. -/
def noFaults : VerifyFaults := ⟨false, false, false, false⟩

/-- The error of `auth.Repository.GetActiveOTP`: the sentinel
`ErrOTPNotFound` on `pgx.ErrNoRows`, or a wrapped driver fault. -/
inductive RepoOTPErr where
  | otpNotFound
  | storage (op : String)
deriving Repr, DecidableEq

/-- The `GetActiveOTP` call as `Service.VerifyOTP` sees it, with an
injectable driver fault. -/
def getActiveOTPCall (fault : Bool) (s : OTPStore) (phone : String) (now : Nat) :
    Except RepoOTPErr OTPRec :=
  if fault then .error (.storage "get active otp")
  else match getActiveOTP s phone now with
    | none => .error .otpNotFound
    | some o => .ok o

/-- Model of `Service.VerifyOTP`.  Any error from `GetActiveOTP` (not-found or
driver fault alike) is collapsed to `ErrInvalidOTP`, as is a code
mismatch; later faults are returned wrapped.  The second component is the
OTP store after the call — `MarkOTPUsed` is a persisted side effect even
when a later step fails. -/
def verifyOTP (f : VerifyFaults) (s : OTPStore) (users : UserStore)
    (phone code : String) (now : Nat) : Except AuthErr VerifyResult × OTPStore :=
  match getActiveOTPCall f.getActive s phone now with
  | .error _ => (.error .invalidOTP, s)
  | .ok activeOTP =>
    if activeOTP.code != code then (.error .invalidOTP, s)
    else if f.markUsed then (.error (.storageFault "mark otp used"), s)
    else
      let s2 := markOTPUsed s activeOTP.id now
      if f.userExists then (.error (.storageFault "check user existence"), s2)
      else if userExists users phone then
        if f.getByPhone then (.error (.storageFault "get existing user"), s2)
        else match getByPhone users phone with
          | .error _ => (.error (.storageFault "get existing user"), s2)
          | .ok u =>
            (.ok { isNewUser := false,
                   token := some (issueToken u.id u.phone u.accountType now),
                   userID := u.id }, s2)
      else (.ok { isNewUser := true, token := none, userID := "" }, s2)

/-- Decimal digit characters of `n`, most significant first: the output of
`%d` for a non-negative integer. -/
def decChars (n : Nat) : List Char :=
  if n = 0 then [Char.ofNat 48]
  else (Nat.digits 10 n).reverse.map fun d => Char.ofNat (48 + d)

/-- Go `fmt.Sprintf("%05d", n)`: the decimal representation of `n`
left-padded with zeros to a minimum width of 5. -/
def fmt05 (n : Nat) : String :=
  ⟨List.replicate (5 - (decChars n).length) (Char.ofNat 48) ++ decChars n⟩

/-- Model of `generateOTP`: `rand.Int(rand.Reader, big.NewInt(100000))` is modelled
by the parameter `n`, the drawn value in `[0, 100000)`, which the function
formats with `%05d`. -/
def generateOTP (n : Nat) : String := fmt05 n

/-- Constant `otpTTL = 2 * time.Minute`, in seconds. -/
def otpTTL : Nat := 120

/-- The integer value of a decimal digit string, most significant digit
first. -/
def decValue (s : String) : Nat :=
  s.data.foldl (fun a c => a * 10 + (c.toNat - 48)) 0

/-- Model of `Service.SendOTP`: generate the code from the random draw, stamp the
expiry `now + otpTTL`, and store both through `UpsertOTP`. -/
def sendOTP (fBegin fInv fIns fCommit : Bool) (s : OTPStore) (phone : String)
    (now randVal : Nat) (newId : String) : Except StorageErr OTPStore :=
  upsertOTP fBegin fInv fIns fCommit s phone (generateOTP randVal)
    (now + otpTTL) now newId

/-- The error `Service.Register` returns: the `fmt.Errorf("create user:
%w", err)` wrap of the user repository error.  (Token signing is modelled
as infallible.) -/
inductive RegisterErr where
  | createUser (e : UserErr)
deriving Repr, DecidableEq

/-- Model of `Service.Register`, with the user store read by the existence check
(`sAtCheck`) and the store current when `Create` runs (`sAtCreate`) given
separately, so that a concurrent registration landing between the two
calls is expressible.  Note the `Create` error is returned wrapped, with
no special case for `ErrAlreadyExists`. -/
def registerWith (sAtCheck sAtCreate : UserStore) (phone accountType : String)
    (now : Nat) (newId : String) :
    Except RegisterErr (TokenClaims × UserRec × UserStore) :=
  match getByPhone sAtCheck phone with
  | .ok existing =>
    .ok (issueToken existing.id existing.phone existing.accountType now,
         existing, sAtCreate)
  | .error _ =>
    match createUser sAtCreate phone accountType now newId with
    | .error e => .error (.createUser e)
    | .ok (u, s') => .ok (issueToken u.id u.phone u.accountType now, u, s')

/-- Model of `Service.Register` run without interleaving: both store reads see the
same state. -/
def register (s : UserStore) (phone accountType : String) (now : Nat)
    (newId : String) : Except RegisterErr (TokenClaims × UserRec × UserStore) :=
  registerWith s s phone accountType now newId

/-- Model of `iranPhoneRegex = ^09[0-9]{9}$`. -/
def iranPhoneOk (s : String) : Bool :=
  match s.data with
  | '0' :: '9' :: rest => rest.length == 9 && rest.all (fun c => c.isDigit)
  | _ => false

/-- The decoded body of `POST /auth/otp/verify`. -/
structure VerifyOTPRequest where
  phone : String
  code : String
deriving Repr, DecidableEq

/-- What `auth.Handler.VerifyOTP` does before (or instead of) invoking the
authentication service: an immediate 400 response, or the service call
with the request fields.  `none` models a body that fails JSON decoding. -/
inductive BoundaryStep where
  | badRequest (msg : String)
  | callService (phone code : String)
deriving Repr, DecidableEq

/-- The validation prefix of `auth.Handler.VerifyOTP`. -/
def verifyOTPBoundary (body : Option VerifyOTPRequest) : BoundaryStep :=
  match body with
  | none => .badRequest "invalid request body"
  | some req =>
    if !iranPhoneOk req.phone then .badRequest "invalid phone number format"
    else if req.code.length != 5 then .badRequest "OTP code must be exactly 5 digits"
    else .callService req.phone req.code

/-- A JSON value inside `jwt.MapClaims`. -/
inductive ClaimVal where
  | str (s : String)
  | num (n : Int)
  | boolean (b : Bool)
deriving Repr, DecidableEq

/-- Model of `jwt.MapClaims` as a key/value list. -/
abbrev JWTClaims := List (String × ClaimVal)

/-- Go `claims[k].(string)` in the `, _` form: the value when present and a
string, otherwise the zero value `""`. -/
def claimString (cs : JWTClaims) (k : String) : String :=
  match cs.lookup k with
  | some (.str s) => s
  | _ => ""

/-- The request context after the middleware ran: the values stored under
the three user keys (`none` when the middleware did not run, so a
handler's type assertion fails). -/
structure ReqContext where
  userID : Option String
  userPhone : Option String
  userAccountType : Option String
deriving Repr, DecidableEq

/-- What `RequireAuth` does with a request. -/
inductive MWOutcome where
  | unauthorized (msg : String)
  | proceed (ctx : ReqContext)
deriving Repr, DecidableEq

/-- The tail of `RequireAuth` after `jwt.Parse`: `none` models a parse
error or invalid token (bad signature, non-HMAC algorithm, expired);
`some claims` a token whose HMAC signature and expiry checks passed.  The
default parser always produces `jwt.MapClaims`, so that type assertion is
modelled as succeeding. -/
def requireAuthParsed (parsed : Option JWTClaims) : MWOutcome :=
  match parsed with
  | none => .unauthorized "invalid or expired token"
  | some claims =>
    .proceed { userID := some (claimString claims "sub"),
               userPhone := some (claimString claims "phone"),
               userAccountType := some (claimString claims "accountType") }

/-- The HTTP status a protected user handler responds with. -/
inductive HStatus where
  | ok
  | badRequest
  | unauthorized
  | notFound
  | conflict
  | internalError
deriving Repr, DecidableEq

/-- Model of `user.Handler.GetMe`: the context guard, then `svc.GetByID`.  `fault`
injects a driver fault into the lookup; the second component records
every user id passed to the user store (empty when storage was never
touched). -/
def getMeHandler (ctxUserID : Option String) (users : UserStore) (fault : Bool) :
    HStatus × List String :=
  match ctxUserID with
  | none => (.unauthorized, [])
  | some uid =>
    if uid == "" then (.unauthorized, [])
    else if fault then (.internalError, [uid])
    else match getByID users uid with
      | .error _ => (.notFound, [uid])
      | .ok _ => (.ok, [uid])

/-- Model of `usernameRegex = ^[a-zA-Z0-9_]+$` applied to a non-empty string. -/
def usernameCharsOk (s : String) : Bool :=
  s.data.all fun c => c.isAlpha || c.isDigit || c == '_'

/-- The decoded body of `PATCH /users/me`. -/
structure UpdateProfileRequest where
  username : Option String
  fullName : Option String
  bio : Option String
  businessPhone : Option String
  address : Option String
deriving Repr, DecidableEq

/-- Model of `user.Handler.UpdateProfile`: context guard, body decode, username and
bio validation, then `svc.UpdateProfile`.  `fault` injects a driver fault
into the update; the second component records the user ids passed to the
user store. -/
def updateProfileHandler (ctxUserID : Option String)
    (body : Option UpdateProfileRequest) (users : UserStore) (now : Nat)
    (fault : Bool) : HStatus × List String :=
  match ctxUserID with
  | none => (.unauthorized, [])
  | some uid =>
    if uid == "" then (.unauthorized, [])
    else match body with
      | none => (.badRequest, [])
      | some req =>
        if req.username.getD "" != "" && !usernameCharsOk (req.username.getD "")
        then (.badRequest, [])
        else if req.username.getD "" != "" && (req.username.getD "").length > 50
        then (.badRequest, [])
        else if req.bio.isSome && (req.bio.getD "").length > 160
        then (.badRequest, [])
        else if fault then (.internalError, [uid])
        else match updateProfile users uid
            ⟨req.username, req.fullName, req.bio, req.businessPhone, req.address⟩ now with
          | .error .usernameTaken => (.conflict, [uid])
          | .error .notFound => (.notFound, [uid])
          | .error _ => (.internalError, [uid])
          | .ok _ => (.ok, [uid])

/-- Table `allowedImageTypes` from the avatar handler. -/
def allowedImageTypes : List (String × String) :=
  [("image/jpeg", ".jpg"), ("image/png", ".png"),
   ("image/webp", ".webp"), ("image/gif", ".gif")]

/-- Model of `user.Handler.UploadAvatar`: context guard first, then the multipart
glue, whose outcomes are passed in (`formOk` for `ParseMultipartForm`,
`filePresent` for `FormFile`, `readOk` for the 512-byte read,
`sniffedType` for `http.DetectContentType`, `uploadOk` for the object
store upload).  The second component records the user ids passed to the
user store. -/
def uploadAvatarHandler (ctxUserID : Option String)
    (formOk filePresent readOk : Bool) (sniffedType : String) (uploadOk : Bool)
    (users : UserStore) (key : String) (now : Nat) : HStatus × List String :=
  match ctxUserID with
  | none => (.unauthorized, [])
  | some uid =>
    if uid == "" then (.unauthorized, [])
    else if !formOk then (.badRequest, [])
    else if !filePresent then (.badRequest, [])
    else if !readOk then (.internalError, [])
    else match allowedImageTypes.lookup sniffedType with
      | none => (.badRequest, [])
      | some _ =>
        if !uploadOk then (.internalError, [])
        else match updateAvatarKey users uid key now with
          | .error _ => (.internalError, [uid])
          | .ok _ => (.ok, [uid])

/-- After `UpsertOTP`'s invalidating `UPDATE`, no mapped old row satisfies
the active predicate for the phone. -/
theorem upsertOTP_mapped_not_active (now : Nat) (phone : String) (o : OTPRec) :
    (((if o.phone == phone && o.usedAt.isNone then { o with usedAt := some now } else o).phone
        == phone)
      && isActiveOTP now
        (if o.phone == phone && o.usedAt.isNone then { o with usedAt := some now } else o))
      = false := by
  by_cases h1 : o.phone = phone
  · cases h : o.usedAt with
    | none => simp [h1, h, isActiveOTP]
    | some t => simp [h1, h, isActiveOTP]
  · have hb : (o.phone == phone) = false := beq_eq_false_iff_ne.mpr h1
    simp [hb]

/-- Claim C1, success-path part: after a successful `UpsertOTP`, the result
is the full invalidate-then-insert application (never a partial state), the
active rows for the phone are exactly the freshly inserted one, and every
previously unconsumed row for the phone is now marked consumed. -/
theorem upsertOTP_exactly_one_active (fBegin fInv fIns fCommit : Bool)
    (s : OTPStore) (phone code : String) (e now : Nat) (newId : String)
    (hlive : now < e) (s' : OTPStore)
    (hok : upsertOTP fBegin fInv fIns fCommit s phone code e now newId = .ok s') :
    s' = upsertOTPApply s phone code e now newId ∧
    s'.filter (fun o => o.phone == phone && isActiveOTP now o)
      = [{ id := newId, phone := phone, code := code, expiresAt := e,
           usedAt := none, createdAt := now }] ∧
    ∀ o ∈ s, o.phone = phone → o.usedAt = none →
      { o with usedAt := some now } ∈ s' := by
  unfold upsertOTP at hok
  split at hok
  · exact absurd hok (by simp)
  split at hok
  · exact absurd hok (by simp)
  split at hok
  · exact absurd hok (by simp)
  split at hok
  · exact absurd hok (by simp)
  have hs' : s' = upsertOTPApply s phone code e now newId := by
    cases hok; rfl
  subst hs'
  refine ⟨rfl, ?_, ?_⟩
  · unfold upsertOTPApply
    rw [List.filter_append]
    have hmap : (s.map fun o =>
        if o.phone == phone && o.usedAt.isNone then { o with usedAt := some now } else o).filter
        (fun o => o.phone == phone && isActiveOTP now o) = [] := by
      rw [List.filter_eq_nil_iff]
      intro a ha
      rcases List.mem_map.mp ha with ⟨o, _, rfl⟩
      have hne := upsertOTP_mapped_not_active now phone o
      simpa using hne
    rw [hmap]
    simp [isActiveOTP, hlive]
  · intro o ho hop hou
    unfold upsertOTPApply
    refine List.mem_append_left _ ?_
    have hcond : (o.phone == phone && o.usedAt.isNone) = true := by
      simp [hop, hou]
    have : (if o.phone == phone && o.usedAt.isNone
        then { o with usedAt := some now } else o) = { o with usedAt := some now } := by
      simp [hcond]
    rw [← this]
    exact List.mem_map_of_mem _ ho

/-- Witness for `upsertOTP_exactly_one_active`: a concrete store holding one
active passcode, re-issued at time 100. -/
theorem upsertOTP_exactly_one_active_witness :
    (upsertOTPApply [⟨"a", "09121234567", "11111", 150, none, 50⟩]
        "09121234567" "22222" 220 100 "b").filter
        (fun o => o.phone == "09121234567" && isActiveOTP 100 o)
      = [⟨"b", "09121234567", "22222", 220, none, 100⟩] ∧
    (⟨"a", "09121234567", "11111", 150, some 100, 50⟩ : OTPRec) ∈
      upsertOTPApply [⟨"a", "09121234567", "11111", 150, none, 50⟩]
        "09121234567" "22222" 220 100 "b" := by
  have h := upsertOTP_exactly_one_active false false false false
      [⟨"a", "09121234567", "11111", 150, none, 50⟩] "09121234567" "22222" 220 100 "b"
      (by decide)
      (upsertOTPApply [⟨"a", "09121234567", "11111", 150, none, 50⟩]
        "09121234567" "22222" 220 100 "b") rfl
  exact ⟨h.2.1, h.2.2 ⟨"a", "09121234567", "11111", 150, none, 50⟩ (by simp) rfl rfl⟩

/-- The accumulator-passing step of `latestBy` only ever returns the
accumulator or a list element. -/
theorem latestBy_go_mem (l : List OTPRec) (acc : Option OTPRec) (o : OTPRec)
    (h : l.foldl (fun acc o => match acc with
      | none => some o
      | some b => if b.createdAt < o.createdAt then some o else some b) acc = some o) :
    acc = some o ∨ o ∈ l := by
  induction l generalizing acc with
  | nil => exact Or.inl h
  | cons a l ih =>
    rcases ih _ h with hacc | hmem
    · cases acc with
      | none =>
        injection hacc with he
        exact Or.inr (he ▸ List.mem_cons_self a l)
      | some b =>
        have hacc' : (if b.createdAt < a.createdAt then some a else some b) = some o := hacc
        split at hacc'
        · injection hacc' with he
          exact Or.inr (he ▸ List.mem_cons_self a l)
        · exact Or.inl hacc'
    · exact Or.inr (List.mem_cons_of_mem a hmem)

/-- Lemma: `latestBy` only returns list elements. -/
theorem latestBy_mem {l : List OTPRec} {o : OTPRec} (h : latestBy l = some o) :
    o ∈ l := by
  rcases latestBy_go_mem l none o h with h' | h'
  · exact absurd h' (by simp)
  · exact h'

/-- A row returned by `GetActiveOTP` is a stored row that satisfies the
active predicate for the phone. -/
theorem getActiveOTP_eq_some {s : OTPStore} {phone : String} {now : Nat}
    {o : OTPRec} (h : getActiveOTP s phone now = some o) :
    o ∈ s ∧ (o.phone == phone && isActiveOTP now o) = true := by
  have hm := latestBy_mem h
  exact ⟨(List.mem_filter.mp hm).1, (List.mem_filter.mp hm).2⟩

/-- When no stored row satisfies the active predicate, `GetActiveOTP`
reports `ErrOTPNotFound`. -/
theorem getActiveOTP_eq_none {s : OTPStore} {phone : String} {now : Nat}
    (h : ∀ o ∈ s, ¬ ((o.phone == phone && isActiveOTP now o) = true)) :
    getActiveOTP s phone now = none := by
  unfold getActiveOTP
  rw [List.filter_eq_nil_iff.mpr h]
  rfl

/-- Claim C2: a fault-free successful `VerifyOTP` has fetched the active
passcode, found the submitted code equal, and persisted `MarkOTPUsed` on
it — whichever way the new-vs-existing branch went — and a second call
with the same code at any later instant fails with `ErrInvalidOTP`.
The uniqueness hypothesis is the per-phone invariant `UpsertOTP`
maintains. -/
theorem verifyOTP_consumes_no_replay
    (s : OTPStore) (users users2 : UserStore) (phone code : String)
    (now now2 : Nat) (res : VerifyResult) (s2 : OTPStore)
    (hmono : now ≤ now2)
    (huniq : ∀ o1 ∈ s, ∀ o2 ∈ s,
      (o1.phone == phone && isActiveOTP now o1) = true →
      (o2.phone == phone && isActiveOTP now o2) = true → o1.id = o2.id)
    (hok : verifyOTP noFaults s users phone code now = (.ok res, s2)) :
    (∃ o, getActiveOTP s phone now = some o ∧ o.code = code ∧
      s2 = markOTPUsed s o.id now) ∧
    verifyOTP noFaults s2 users2 phone code now2 = (.error .invalidOTP, s2) := by
  rcases hga : getActiveOTP s phone now with _ | o
  · rw [verifyOTP, getActiveOTPCall] at hok
    simp [noFaults, hga] at hok
  · rw [verifyOTP, getActiveOTPCall] at hok
    simp only [noFaults, Bool.false_eq_true, if_false, hga] at hok
    by_cases hcode : (o.code != code) = true
    · simp [hcode] at hok
    · have hcodeEq : o.code = code := by
        simpa using hcode
      simp only [hcode, if_false] at hok
      have hs2 : s2 = markOTPUsed s o.id now := by
        rcases hreg : userExists users phone with _ | _ <;>
          rcases hgbp : getByPhone users phone with e | u <;>
          · rw [hreg, hgbp] at hok
            exact (congrArg Prod.snd hok).symm
      have hoP := getActiveOTP_eq_some hga
      refine ⟨⟨o, rfl, hcodeEq, hs2⟩, ?_⟩
      have hnone2 : getActiveOTP s2 phone now2 = none := by
        apply getActiveOTP_eq_none
        intro o' ho' hpred
        rw [hs2] at ho'
        rcases List.mem_map.mp ho' with ⟨o'', ho'', rfl⟩
        by_cases hid : (o''.id == o.id) = true
        · rw [if_pos hid] at hpred
          simp [isActiveOTP] at hpred
        · rw [if_neg (by simpa using hid)] at hpred
          simp only [isActiveOTP, Bool.and_eq_true, decide_eq_true_eq] at hpred
          obtain ⟨hph, hun, hexp⟩ := hpred
          have hexp' : now < o''.expiresAt := lt_of_le_of_lt hmono hexp
          have hpred0 : (o''.phone == phone && isActiveOTP now o'') = true := by
            simp [isActiveOTP, hph, hun, hexp']
          have := huniq o'' ho'' o hoP.1 hpred0 hoP.2
          exact hid (by simpa using this)
      rw [verifyOTP, getActiveOTPCall]
      simp [noFaults, hnone2]

/-- Witness for `verifyOTP_consumes_no_replay`: one active passcode,
verified at time 10, replayed at time 20. -/
theorem verifyOTP_consumes_no_replay_witness :
    verifyOTP noFaults [⟨"a", "09121234567", "12345", 120, some 10, 0⟩] []
      "09121234567" "12345" 20
      = (.error .invalidOTP, [⟨"a", "09121234567", "12345", 120, some 10, 0⟩]) := by
  have h := verifyOTP_consumes_no_replay
      [⟨"a", "09121234567", "12345", 120, none, 0⟩] [] [] "09121234567" "12345"
      10 20 ⟨true, none, ""⟩ [⟨"a", "09121234567", "12345", 120, some 10, 0⟩]
      (by decide) (by decide) (by decide)
  exact h.2

/-- Counterexample to claim C3 as stated: with an active passcode present
and the correct code submitted, a driver fault in the `GetActiveOTP` fetch
is reported as `ErrInvalidOTP`, not as a distinct generic failure. -/
theorem verifyOTP_fault_collapsed_to_invalidOTP :
    (verifyOTP ⟨true, false, false, false⟩
      [⟨"a", "09121234567", "12345", 120, none, 0⟩] [] "09121234567" "12345" 10).1
      = .error .invalidOTP := by decide

/-- Claim C3 amended: `VerifyOTP` fails with `ErrInvalidOTP` exactly when
the active-passcode fetch yields no row — no OTP, expired OTP, consumed
OTP, or a driver fault during the fetch, all collapsed — or the submitted
code differs from the active code; faults in the later steps surface as
the distinct wrapped failure instead. -/
theorem verifyOTP_invalidOTP_iff (f : VerifyFaults) (s : OTPStore)
    (users : UserStore) (phone code : String) (now : Nat) :
    (verifyOTP f s users phone code now).1 = .error .invalidOTP ↔
      (f.getActive = true ∨ getActiveOTP s phone now = none ∨
        ∃ o, getActiveOTP s phone now = some o ∧ o.code ≠ code) := by
  by_cases hf : f.getActive = true
  · simp [verifyOTP, getActiveOTPCall, hf]
  · have hf' : f.getActive = false := by simpa using hf
    rcases hga : getActiveOTP s phone now with _ | o
    · simp [verifyOTP, getActiveOTPCall, hf', hga]
    · by_cases hc : o.code = code
      · have hbne : (o.code != code) = false := by simp [hc]
        rcases f with ⟨fg, fm, fu, fb⟩
        simp only at hf'
        subst hf'
        rcases hue : userExists users phone with _ | _ <;>
          rcases hgb : getByPhone users phone with e | u <;>
          cases fm <;> cases fu <;> cases fb <;>
          simp [verifyOTP, getActiveOTPCall, hga, hbne, hue, hgb, hc]
      · have hbne : (o.code != code) = true := by simpa using hc
        simp [verifyOTP, getActiveOTPCall, hf', hga, hbne, hc]

/-- Witness for `verifyOTP_invalidOTP_iff`: an empty store makes the fetch
fail, so the fault-free run reports `ErrInvalidOTP`. -/
theorem verifyOTP_invalidOTP_iff_witness :
    (verifyOTP noFaults [] [] "09121234567" "12345" 0).1 = .error .invalidOTP :=
  (verifyOTP_invalidOTP_iff noFaults [] [] "09121234567" "12345" 0).mpr
    (Or.inr (Or.inl (by decide)))

/-- A `GetByPhone` miss means no stored row carries the phone. -/
theorem getByPhone_error_find {s : UserStore} {phone : String} {e : UserErr}
    (hgb : getByPhone s phone = .error e) :
    s.find? (fun u => u.phone == phone) = none := by
  unfold getByPhone at hgb
  rcases h : s.find? (fun u => u.phone == phone) with _ | v
  · exact h
  · rw [h] at hgb
    exact absurd hgb (by simp)

/-- Claim C4: `Register` is idempotent with respect to account creation.
With an account already present it returns that account, a fresh valid
token bound to its id, and an unchanged store; and after any successful
`Register`, a second call succeeds for the same account id without
touching the store. -/
theorem register_idempotent (s : UserStore) (phone accountType : String)
    (now1 now2 : Nat) (id1 id2 : String) :
    (∀ u, getByPhone s phone = .ok u →
      register s phone accountType now1 id1
        = .ok (issueToken u.id u.phone u.accountType now1, u, s)) ∧
    (∀ t1 u1 s1, register s phone accountType now1 id1 = .ok (t1, u1, s1) →
      t1 = issueToken u1.id u1.phone u1.accountType now1 ∧
      t1.sub = u1.id ∧ now1 < t1.exp ∧
      register s1 phone accountType now2 id2
        = .ok (issueToken u1.id u1.phone u1.accountType now2, u1, s1) ∧
      (issueToken u1.id u1.phone u1.accountType now2).sub = u1.id ∧
      now2 < (issueToken u1.id u1.phone u1.accountType now2).exp) := by
  constructor
  · intro u hu
    unfold register registerWith
    rw [hu]
  · intro t1 u1 s1 hok
    unfold register registerWith at hok
    rcases hgb : getByPhone s phone with e | u
    · rw [hgb] at hok
      unfold createUser at hok
      by_cases hany : s.any (fun v => v.phone == phone) = true
      · simp [hany] at hok
      · have hany' : s.any (fun v => v.phone == phone) = false := by simpa using hany
        simp only [hany', Bool.false_eq_true, if_false] at hok
        simp only [Except.ok.injEq, Prod.mk.injEq] at hok
        obtain ⟨ht, rfl, rfl⟩ := hok
        subst ht
        have hfind : getByPhone
            (s ++ [{ id := id1, phone := phone, accountType := accountType,
                     username := none, fullName := none, bio := none,
                     businessPhone := none, address := none, avatarKey := none,
                     createdAt := now1, updatedAt := now1 }]) phone
            = .ok { id := id1, phone := phone, accountType := accountType,
                    username := none, fullName := none, bio := none,
                    businessPhone := none, address := none, avatarKey := none,
                    createdAt := now1, updatedAt := now1 } := by
          unfold getByPhone
          rw [List.find?_append, getByPhone_error_find hgb]
          simp [List.find?]
        refine ⟨rfl, rfl, ?_, ?_, rfl, ?_⟩
        · simp only [issueToken, tokenTTL]
          omega
        · unfold register registerWith
          rw [hfind]
        · simp only [issueToken, tokenTTL]
          omega
    · rw [hgb] at hok
      simp only [Except.ok.injEq, Prod.mk.injEq] at hok
      obtain ⟨ht, rfl, rfl⟩ := hok
      subst ht
      refine ⟨rfl, rfl, ?_, ?_, rfl, ?_⟩
      · simp only [issueToken, tokenTTL]
        omega
      · unfold register registerWith
        rw [hgb]
      · simp only [issueToken, tokenTTL]
        omega

/-- Witness for `register_idempotent`: a second registration of the same
phone returns the original account id with a fresh token and no new row. -/
theorem register_idempotent_witness :
    register [⟨"u1", "09121234567", "personal", none, none, none, none, none, none, 0, 0⟩]
      "09121234567" "personal" 7 "u2"
      = .ok (issueToken "u1" "09121234567" "personal" 7,
             ⟨"u1", "09121234567", "personal", none, none, none, none, none, none, 0, 0⟩,
             [⟨"u1", "09121234567", "personal", none, none, none, none, none, none, 0, 0⟩]) := by
  have h := (register_idempotent [] "09121234567" "personal" 0 7 "u1" "u2").2
      (issueToken "u1" "09121234567" "personal" 0)
      ⟨"u1", "09121234567", "personal", none, none, none, none, none, none, 0, 0⟩
      [⟨"u1", "09121234567", "personal", none, none, none, none, none, none, 0, 0⟩]
      (by decide)
  exact h.2.2.2.1

/-- Claim C5 evaluated on the code at the racing input: the existence
check sees no account, a concurrent registration lands before `Create`
runs, and `Register` returns the wrapped duplicate-key error as a hard
failure instead of fetching and returning the existing account. -/
theorem registerWith_race_hard_failure :
    registerWith []
      [⟨"u1", "09121234567", "personal", none, none, none, none, none, none, 0, 0⟩]
      "09121234567" "personal" 5 "u2"
      = .error (.createUser .alreadyExists) := by decide

/-- Counterexample to claim C7 as stated: a second `MarkOTPUsed` at a later
instant does not leave the record in the same state — it overwrites the
consumed timestamp. -/
theorem markOTPUsed_not_idempotent :
    markOTPUsed (markOTPUsed [⟨"a", "09121234567", "12345", 120, none, 0⟩] "a" 10) "a" 20
      ≠ markOTPUsed [⟨"a", "09121234567", "12345", 120, none, 0⟩] "a" 10 := by decide

/-- Claim C7 amended: `MarkOTPUsed` is absorptive — two applications equal
one application at the second call's time, so the record stays consumed
and no other field changes — and it is idempotent exactly when both
applications carry the same timestamp. -/
theorem markOTPUsed_absorb (s : OTPStore) (id : String) (t1 t2 : Nat) :
    markOTPUsed (markOTPUsed s id t1) id t2 = markOTPUsed s id t2 ∧
    markOTPUsed (markOTPUsed s id t1) id t1 = markOTPUsed s id t1 := by
  have habs : ∀ t t' : Nat,
      markOTPUsed (markOTPUsed s id t) id t' = markOTPUsed s id t' := by
    intro t t'
    unfold markOTPUsed
    rw [List.map_map]
    refine congrArg (fun f => List.map f s) ?_
    funext o
    by_cases h : (o.id == id) = true
    · simp [Function.comp, h]
    · simp [Function.comp, h]
  exact ⟨habs t1 t2, habs t1 t1⟩

/-- Claim C8: on a successful `UpdateProfile`, identity, phone, account
type, avatar key and creation time are never touched, every absent
parameter leaves its column unchanged, and the bio-only update changes
exactly the bio (and the trigger-maintained `updated_at`). -/
theorem updateProfile_frame (s : UserStore) (id : String)
    (p : UpdateProfileParams) (now : Nat) (u u' : UserRec) (s' : UserStore)
    (hfind : s.find? (fun v => v.id == id) = some u)
    (hok : updateProfile s id p now = .ok (u', s')) :
    u'.id = u.id ∧ u'.phone = u.phone ∧ u'.accountType = u.accountType ∧
    u'.avatarKey = u.avatarKey ∧ u'.createdAt = u.createdAt ∧
    (p.username = none → u'.username = u.username) ∧
    (p.fullName = none → u'.fullName = u.fullName) ∧
    (p.bio = none → u'.bio = u.bio) ∧
    (p.businessPhone = none → u'.businessPhone = u.businessPhone) ∧
    (p.address = none → u'.address = u.address) ∧
    (∀ b, p = ⟨none, none, some b, none, none⟩ →
      u' = { u with bio := some b, updatedAt := now }) := by
  unfold updateProfile at hok
  split at hok
  · exact absurd hok (by simp)
  · rename_i u0 heq
    rw [hfind] at heq
    injection heq with heq
    subst heq
    split at hok
    · exact absurd hok (by simp)
    simp only [Except.ok.injEq, Prod.mk.injEq] at hok
    obtain ⟨rfl, rfl⟩ := hok
    refine ⟨rfl, rfl, rfl, rfl, rfl, ?_, ?_, ?_, ?_, ?_, ?_⟩
    · intro h
      simp [applyProfileUpdate, coalesce, h]
    · intro h
      simp [applyProfileUpdate, coalesce, h]
    · intro h
      simp [applyProfileUpdate, coalesce, h]
    · intro h
      simp [applyProfileUpdate, coalesce, h]
    · intro h
      simp [applyProfileUpdate, coalesce, h]
    · intro b hp
      subst hp
      rfl

/-- Witness for `updateProfile_frame`: a bio-only update on a fully
populated record leaves the other profile fields as they were. -/
theorem updateProfile_frame_witness :
    (⟨"u1", "09121234567", "personal", some "nick", some "Name", some "x",
        some "02", some "addr", some "k", 0, 9⟩ : UserRec).username = some "nick" ∧
    (⟨"u1", "09121234567", "personal", some "nick", some "Name", some "x",
        some "02", some "addr", some "k", 0, 9⟩ : UserRec).fullName = some "Name" ∧
    (⟨"u1", "09121234567", "personal", some "nick", some "Name", some "x",
        some "02", some "addr", some "k", 0, 9⟩ : UserRec).businessPhone = some "02" ∧
    (⟨"u1", "09121234567", "personal", some "nick", some "Name", some "x",
        some "02", some "addr", some "k", 0, 9⟩ : UserRec).address = some "addr" := by
  have h := updateProfile_frame
      [⟨"u1", "09121234567", "personal", some "nick", some "Name", some "old",
         some "02", some "addr", some "k", 0, 0⟩] "u1"
      ⟨none, none, some "x", none, none⟩ 9
      ⟨"u1", "09121234567", "personal", some "nick", some "Name", some "old",
         some "02", some "addr", some "k", 0, 0⟩
      ⟨"u1", "09121234567", "personal", some "nick", some "Name", some "x",
         some "02", some "addr", some "k", 0, 9⟩
      [⟨"u1", "09121234567", "personal", some "nick", some "Name", some "x",
         some "02", some "addr", some "k", 0, 9⟩]
      (by decide) (by decide)
  exact ⟨h.2.2.2.2.2.1 rfl, h.2.2.2.2.2.2.1 rfl,
         h.2.2.2.2.2.2.2.2.1 rfl, h.2.2.2.2.2.2.2.2.2.1 rfl⟩

/-- Counterexample to claim C9 as stated: the 5-character non-digit code
"abcde" with a well-formed phone passes the boundary validation and is
handed to the authentication service (which will consult storage), rather
than being rejected before any storage access. -/
theorem verifyOTPBoundary_accepts_nondigit_code :
    verifyOTPBoundary (some ⟨"09121234567", "abcde"⟩)
      = .callService "09121234567" "abcde" := by decide

/-- Claim C9 amended: for a well-formed phone, the boundary validates only
the length of the code — a code of length other than 5 is rejected with
the 400 validation message before any service call, and any 5-character
code, digits or not, is passed through to the service. -/
theorem verifyOTPBoundary_checks_length_only (req : VerifyOTPRequest)
    (hphone : iranPhoneOk req.phone = true) :
    (req.code.length ≠ 5 →
      verifyOTPBoundary (some req) = .badRequest "OTP code must be exactly 5 digits") ∧
    (req.code.length = 5 →
      verifyOTPBoundary (some req) = .callService req.phone req.code) := by
  constructor
  · intro h
    simp only [verifyOTPBoundary, hphone]
    simp [h]
  · intro h
    simp only [verifyOTPBoundary, hphone]
    simp [h]

/-- Witness for `verifyOTPBoundary_checks_length_only`: a digit code of
length 5 reaches the service. -/
theorem verifyOTPBoundary_checks_length_only_witness :
    verifyOTPBoundary (some ⟨"09121234567", "54321"⟩)
      = .callService "09121234567" "54321" := by
  have h := verifyOTPBoundary_checks_length_only ⟨"09121234567", "54321"⟩ (by decide)
  exact h.2 (by decide)

/-- Claim C10: a token that passes the HMAC signature and expiry checks
but carries no string `"sub"` claim flows through `RequireAuth` with the
empty string as the context user id, and each protected user handler then
responds 401 Unauthorized without touching the user store — never a 500
or a not-found. -/
theorem missing_sub_claim_unauthorized (claims : JWTClaims)
    (hnosub : ∀ v, claims.lookup "sub" ≠ some (.str v)) :
    requireAuthParsed (some claims)
      = .proceed ⟨some "", some (claimString claims "phone"),
                  some (claimString claims "accountType")⟩ ∧
    (∀ users fault, getMeHandler (some "") users fault = (.unauthorized, [])) ∧
    (∀ body users now fault,
      updateProfileHandler (some "") body users now fault = (.unauthorized, [])) ∧
    (∀ fOk fPres rOk sn upOk users key now,
      uploadAvatarHandler (some "") fOk fPres rOk sn upOk users key now
        = (.unauthorized, [])) := by
  have hsub : claimString claims "sub" = "" := by
    unfold claimString
    rcases h : claims.lookup "sub" with _ | v
    · rfl
    · cases v with
      | str v => exact absurd h (hnosub v)
      | num n => rfl
      | boolean b => rfl
  refine ⟨?_, ?_, ?_, ?_⟩
  · show MWOutcome.proceed ⟨some (claimString claims "sub"),
        some (claimString claims "phone"),
        some (claimString claims "accountType")⟩ = _
    rw [hsub]
  · intro users fault
    simp [getMeHandler]
  · intro body users now fault
    simp [updateProfileHandler]
  · intro fOk fPres rOk sn upOk users key now
    simp [uploadAvatarHandler]

/-- Witness for `missing_sub_claim_unauthorized`: a validly signed token
carrying only a phone claim. -/
theorem missing_sub_claim_unauthorized_witness :
    requireAuthParsed (some [("phone", .str "09121234567")])
      = .proceed ⟨some "", some "09121234567", some ""⟩ ∧
    getMeHandler (some "") [] false = (.unauthorized, []) := by
  have hlk : (([("phone", ClaimVal.str "09121234567")] : JWTClaims).lookup "sub")
      = none := by decide
  have h := missing_sub_claim_unauthorized [("phone", .str "09121234567")]
      (by intro v hv; rw [hlk] at hv; exact Option.noConfusion hv)
  exact ⟨h.1, h.2.1 [] false⟩

/-- For draws below `10^5` the bare decimal representation has at most 5
characters. -/
theorem decChars_length_le {n : Nat} (h : n < 100000) :
    (decChars n).length ≤ 5 := by
  unfold decChars
  by_cases h0 : n = 0
  · simp [h0]
  · rw [if_neg h0]
    simp only [List.length_map, List.length_reverse]
    rw [Nat.digits_len 10 n (by norm_num) h0]
    have hp : (10 : ℕ) ^ 5 = 100000 := by norm_num
    have hlog := Nat.log_lt_of_lt_pow h0 (by rw [hp]; exact h)
    omega

/-- Formatting a draw below `10^5` with `%05d` gives exactly 5 characters. -/
theorem fmt05_length {n : Nat} (h : n < 100000) : (fmt05 n).length = 5 := by
  have hle := decChars_length_le h
  show (List.replicate (5 - (decChars n).length) (Char.ofNat 48) ++ decChars n).length = 5
  rw [List.length_append, List.length_replicate]
  omega

/-- Every character of the bare decimal representation is a digit. -/
theorem decChars_digits (n : Nat) : ∀ c ∈ decChars n, c.isDigit = true := by
  unfold decChars
  by_cases h0 : n = 0
  · rw [if_pos h0]
    intro c hc
    simp at hc
    subst hc
    decide
  · rw [if_neg h0]
    intro c hc
    rcases List.mem_map.mp hc with ⟨d, hd, rfl⟩
    have hd10 : d < 10 := Nat.digits_lt_base (by norm_num) (List.mem_reverse.mp hd)
    interval_cases d <;> decide

/-- Every character of `%05d` output is a digit. -/
theorem fmt05_digits (n : Nat) : ∀ c ∈ (fmt05 n).data, c.isDigit = true := by
  intro c hc
  have hc' : c ∈ List.replicate (5 - (decChars n).length) (Char.ofNat 48)
      ++ decChars n := hc
  rcases List.mem_append.mp hc' with h | h
  · rw [List.eq_of_mem_replicate h]
    decide
  · exact decChars_digits n c h

/-- Leading zero padding contributes nothing to the parsed value. -/
theorem foldl_pad_zero (k : Nat) :
    List.foldl (fun a c => a * 10 + (c.toNat - 48)) 0
      (List.replicate k (Char.ofNat 48)) = 0 := by
  induction k with
  | zero => rfl
  | succ k ih =>
    rw [List.replicate_succ, List.foldl_cons]
    have hz : (0 * 10 + ((Char.ofNat 48).toNat - 48)) = 0 := by decide
    rw [hz]
    exact ih

/-- Parsing the digit characters equals folding the digit values. -/
theorem foldl_digit_chars (l : List Nat) (hl : ∀ d ∈ l, d < 10) (acc : Nat) :
    List.foldl (fun a c => a * 10 + (c.toNat - 48)) acc
        (l.map fun d => Char.ofNat (48 + d))
      = List.foldl (fun a d => a * 10 + d) acc l := by
  induction l generalizing acc with
  | nil => rfl
  | cons d l ih =>
    rw [List.map_cons, List.foldl_cons, List.foldl_cons]
    have hd : d < 10 := hl d (by simp)
    have hch : (Char.ofNat (48 + d)).toNat - 48 = d := by
      interval_cases d <;> decide
    rw [hch]
    exact ih (fun x hx => hl x (by simp [hx])) _

/-- Folding most-significant-first digit values recovers `Nat.ofDigits` of
the little-endian digit list. -/
theorem foldl_reverse_ofDigits (l : List Nat) :
    List.foldl (fun a d => a * 10 + d) 0 l.reverse = Nat.ofDigits 10 l := by
  induction l with
  | nil => simp [Nat.ofDigits]
  | cons d l ih =>
    rw [List.reverse_cons, List.foldl_append, ih, List.foldl_cons, List.foldl_nil,
        Nat.ofDigits_cons]
    ring

/-- Parsing `%05d` output recovers the formatted value. -/
theorem decValue_fmt05 (n : Nat) : decValue (fmt05 n) = n := by
  show List.foldl (fun a c => a * 10 + (c.toNat - 48)) 0
      (List.replicate (5 - (decChars n).length) (Char.ofNat 48) ++ decChars n) = n
  rw [List.foldl_append, foldl_pad_zero]
  unfold decChars
  by_cases h0 : n = 0
  · rw [if_pos h0, h0]
    decide
  · rw [if_neg h0]
    rw [foldl_digit_chars ((Nat.digits 10 n).reverse)
        (fun d hd => Nat.digits_lt_base (by norm_num) (List.mem_reverse.mp hd)) 0]
    rw [foldl_reverse_ofDigits]
    exact Nat.ofDigits_digits 10 n

/-- Claim C6: every code `SendOTP` stores is the zero-padded 5-character
decimal representation of the random draw `n < 100000`, and the stored
row's expiry is exactly `otpTTL` = 2 minutes after the issuance time. -/
theorem sendOTP_code_format_and_expiry (fBegin fInv fIns fCommit : Bool)
    (s : OTPStore) (phone : String) (now n : Nat) (newId : String)
    (hn : n < 100000) (s' : OTPStore)
    (hok : sendOTP fBegin fInv fIns fCommit s phone now n newId = .ok s') :
    (generateOTP n).length = 5 ∧
    (∀ c ∈ (generateOTP n).data, c.isDigit = true) ∧
    decValue (generateOTP n) = n ∧
    otpTTL = 2 * 60 ∧
    ({ id := newId, phone := phone, code := generateOTP n,
       expiresAt := now + otpTTL, usedAt := none, createdAt := now } : OTPRec)
      ∈ s' := by
  refine ⟨fmt05_length hn, fmt05_digits n, decValue_fmt05 n, rfl, ?_⟩
  unfold sendOTP upsertOTP at hok
  split at hok
  · exact absurd hok (by simp)
  split at hok
  · exact absurd hok (by simp)
  split at hok
  · exact absurd hok (by simp)
  split at hok
  · exact absurd hok (by simp)
  cases hok
  unfold upsertOTPApply
  exact List.mem_append_right _ (by simp)

/-- Witness for `sendOTP_code_format_and_expiry`: the draw 7, issued at
time 100, stored with expiry 220. -/
theorem sendOTP_code_format_and_expiry_witness :
    (generateOTP 7).length = 5 ∧ decValue (generateOTP 7) = 7 ∧
    ({ id := "b", phone := "09121234567", code := generateOTP 7,
       expiresAt := 220, usedAt := none, createdAt := 100 } : OTPRec)
      ∈ upsertOTPApply [] "09121234567" (generateOTP 7) 220 100 "b" := by
  have h := sendOTP_code_format_and_expiry false false false false []
      "09121234567" 100 7 "b" (by decide)
      (upsertOTPApply [] "09121234567" (generateOTP 7) 220 100 "b") rfl
  exact ⟨h.1, h.2.2.1, h.2.2.2.2⟩

end Radif
